import Mathlib

/-!
# ChatSnapshot — verification of the event-sourcing core

Shallow embedding of the ChatSnapshot event-sourcing kernel:
the canonical `EventEnvelope` record (`src/chatsnapshot/events/envelope.py`,
`src/chatsnapshot/events/types.py`), the in-memory and SQLite event stores
(`src/chatsnapshot/storage/memory_store.py`, `sqlite_store.py`), the
`Observer` record/notify path (`src/chatsnapshot/observer.py`) and the
projections (`src/chatsnapshot/projections/snapshot.py`, `transcript.py`).

Modelling conventions:
* Python `datetime` values are modelled as natural-number ticks.
  `datetime.isoformat` / `datetime.fromisoformat` form an exact round trip
  in Python, and ISO-8601 strings of a fixed format compare
  lexicographically exactly as the underlying instants compare, so the
  serialized timestamp is represented by the tick itself and timestamp
  comparison by `≤` on `Nat`.  `strftime` output is likewise abstracted to
  a decimal rendering of the tick; no claim inspects the text of a
  formatted timestamp.
* Python `dict` payloads are modelled as association lists over a JSON
  value type, with Python's insertion-order update semantics.
* `async` functions are modelled as pure state-passing functions: each
  Python coroutine here is sequential (the one `asyncio.gather` fan-out is
  observed only through which callbacks were invoked, which the model
  records explicitly).
-/

set_option linter.dupNamespace false
set_option linter.unusedVariables false

namespace ChatSnapshot

/-- JSON-style values, the payload universe (`Dict[str, Any]` contents). -/
inductive JsonValue where
  | str (s : String)
  | num (n : Int)
  | boolean (b : Bool)
  | null
  | arr (xs : List JsonValue)
  | obj (fields : List (String × JsonValue))

/-- A Python `dict` with string keys: an association list whose keys are
unique, in insertion order.  (Uniqueness is maintained by `Payload.set`.) -/
abbrev Payload := List (String × JsonValue)

/-- `d.get(k)` / `d.get(k, default) is None`-style lookup: first (unique)
entry for the key. -/
def Payload.get : Payload → String → Option JsonValue
  | [], _ => none
  | (k, v) :: rest, key => if k = key then some v else Payload.get rest key

/-- `d.get(k, default)`. -/
def Payload.getD (p : Payload) (key : String) (default : JsonValue) : JsonValue :=
  (p.get key).getD default

/-- `k in d`. -/
def Payload.contains (p : Payload) (key : String) : Bool :=
  (p.get key).isSome

/-- `d[k] = v`: overwrite in place when the key exists, else append
(Python preserves insertion order). -/
def Payload.set (p : Payload) (key : String) (v : JsonValue) : Payload :=
  if p.contains key then
    p.map (fun kv => if kv.1 = key then (key, v) else kv)
  else
    p ++ [(key, v)]

/-- `d.update(other)`: set every field of `other` in order. -/
def Payload.update (p other : Payload) : Payload :=
  other.foldl (fun acc kv => acc.set kv.1 kv.2) p

/-- Python truthiness of a JSON value (`if not content: ...`). -/
def JsonValue.falsy : JsonValue → Bool
  | .str s => s = ""
  | .num n => n = 0
  | .boolean b => !b
  | .null => true
  | .arr xs => xs.isEmpty
  | .obj fs => fs.isEmpty

/-- `EventType` — the closed enum of canonical fact kinds
(`events/types.py`). -/
inductive EventType where
  | execution_message
  | execution_tool_call
  | execution_tool_result
  | execution_state_change
  | execution_handoff
  | execution_completed
  | system_workflow_started
  | system_workflow_completed
  | system_task_scheduled
  | system_task_completed
  | system_error
  | ui_input_received
  | ui_output_displayed
  | integration_call
  | integration_response
deriving DecidableEq, Repr

/-- The wire value of each `EventType` member (`EventType.value`). -/
def EventType.value : EventType → String
  | .execution_message => "execution.message"
  | .execution_tool_call => "execution.tool_call"
  | .execution_tool_result => "execution.tool_result"
  | .execution_state_change => "execution.state_change"
  | .execution_handoff => "execution.handoff"
  | .execution_completed => "execution.completed"
  | .system_workflow_started => "system.workflow_started"
  | .system_workflow_completed => "system.workflow_completed"
  | .system_task_scheduled => "system.task_scheduled"
  | .system_task_completed => "system.task_completed"
  | .system_error => "system.error"
  | .ui_input_received => "ui.input_received"
  | .ui_output_displayed => "ui.output_displayed"
  | .integration_call => "integration.call"
  | .integration_response => "integration.response"

/-- `EventType(s)` — enum lookup by wire value; `none` models the
`ValueError` Python raises for an unknown value. -/
def EventType.ofValue (s : String) : Option EventType :=
  if s = "execution.message" then some .execution_message
  else if s = "execution.tool_call" then some .execution_tool_call
  else if s = "execution.tool_result" then some .execution_tool_result
  else if s = "execution.state_change" then some .execution_state_change
  else if s = "execution.handoff" then some .execution_handoff
  else if s = "execution.completed" then some .execution_completed
  else if s = "system.workflow_started" then some .system_workflow_started
  else if s = "system.workflow_completed" then some .system_workflow_completed
  else if s = "system.task_scheduled" then some .system_task_scheduled
  else if s = "system.task_completed" then some .system_task_completed
  else if s = "system.error" then some .system_error
  else if s = "ui.input_received" then some .ui_input_received
  else if s = "ui.output_displayed" then some .ui_output_displayed
  else if s = "integration.call" then some .integration_call
  else if s = "integration.response" then some .integration_response
  else none

/-- `EventOrigin` enum (`events/types.py`). -/
inductive EventOrigin where
  | agent
  | system
  | ui
  | integration
deriving DecidableEq, Repr

def EventOrigin.value : EventOrigin → String
  | .agent => "agent"
  | .system => "system"
  | .ui => "ui"
  | .integration => "integration"

def EventOrigin.ofValue (s : String) : Option EventOrigin :=
  if s = "agent" then some .agent
  else if s = "system" then some .system
  else if s = "ui" then some .ui
  else if s = "integration" then some .integration
  else none

/-- `RuntimeType` enum (`events/types.py`). -/
inductive RuntimeType where
  | ag2
  | langgraph
  | crewai
  | custom
  | none
deriving DecidableEq, Repr

def RuntimeType.value : RuntimeType → String
  | .ag2 => "ag2"
  | .langgraph => "langgraph"
  | .crewai => "crewai"
  | .custom => "custom"
  | .none => "none"

def RuntimeType.ofValue (s : String) : Option RuntimeType :=
  if s = "ag2" then some .ag2
  else if s = "langgraph" then some .langgraph
  else if s = "crewai" then some .crewai
  else if s = "custom" then some .custom
  else if s = "none" then some .none
  else Option.none

/-- `EventSource` — provenance of a fact (`events/envelope.py`). -/
structure EventSource where
  origin : EventOrigin
  runtime : RuntimeType := .none
  agent_name : Option String := Option.none
deriving DecidableEq, Repr

/-- The dictionary shape produced by `EventSource.to_dict`. -/
structure SourceDict where
  origin : String
  runtime : String
  agent_name : Option String
deriving DecidableEq, Repr

def EventSource.to_dict (s : EventSource) : SourceDict :=
  { origin := s.origin.value, runtime := s.runtime.value, agent_name := s.agent_name }

/-- `EventSource.from_dict` — `data.get("runtime", "none")` is total here
because `to_dict` always emits the key; unknown enum values model the
`ValueError` raised by the enum constructor. -/
def EventSource.from_dict (d : SourceDict) : Option EventSource :=
  match EventOrigin.ofValue d.origin, RuntimeType.ofValue d.runtime with
  | some o, some r => some { origin := o, runtime := r, agent_name := d.agent_name }
  | _, _ => Option.none

/-- `EventEnvelope` — the canonical event record (`events/envelope.py`).
The timestamp is a `datetime` modelled as a tick count. -/
structure EventEnvelope where
  event_id : String
  event_type : EventType
  timestamp : Nat
  source : EventSource
  correlation_id : String
  payload : Payload := []
  causation_id : Option String := Option.none

/-- The dictionary shape produced by `EventEnvelope.to_dict`.  The
`timestamp` field carries the tick that the ISO-8601 string encodes
(`isoformat`/`fromisoformat` is an exact round trip). -/
structure EventDict where
  event_id : String
  event_type : String
  timestamp : Nat
  source : SourceDict
  correlation_id : String
  payload : Payload
  causation_id : Option String

def EventEnvelope.to_dict (e : EventEnvelope) : EventDict :=
  { event_id := e.event_id
    event_type := e.event_type.value
    timestamp := e.timestamp
    source := e.source.to_dict
    correlation_id := e.correlation_id
    payload := e.payload
    causation_id := e.causation_id }

/-- `EventEnvelope.from_dict` — fallible at the two enum constructors
(`EventType(...)`, `EventSource.from_dict`). -/
def EventEnvelope.from_dict (d : EventDict) : Option EventEnvelope :=
  match EventType.ofValue d.event_type, EventSource.from_dict d.source with
  | some t, some s =>
      some { event_id := d.event_id
             event_type := t
             timestamp := d.timestamp
             source := s
             correlation_id := d.correlation_id
             payload := d.payload
             causation_id := d.causation_id }
  | _, _ => Option.none

/-! ## Event stores

`MemoryEventStore` (`storage/memory_store.py`) keeps a Python list in
append order; every query filters and then calls Python's stable
`sorted(..., key=lambda e: e.timestamp)`.  `SQLiteEventStore`
(`storage/sqlite_store.py`) keeps rows in an autoincrement-rowid table
with a `UNIQUE` constraint on `event_id`; queries are
`SELECT ... ORDER BY timestamp` — SQL leaves the order of rows with equal
sort keys unspecified, so those queries are embedded as a *relation*
between the appended rows and an admissible result list. -/

inductive StorageError where
  | storageFailure
deriving DecidableEq, Repr

/-- Store state: the appended events in append (insertion/rowid) order. -/
abbrev StoreState := List EventEnvelope

/-- Python's stable sort is modelled by stable insertion on the timestamp
key: insert before the first element whose key is `≥` the new key.  Any
two stable sorts of the same keyed list are equal, so this is an exact
model of `sorted(..., key=lambda e: e.timestamp)`. -/
def orderedInsertTs (e : EventEnvelope) : List EventEnvelope → List EventEnvelope
  | [] => [e]
  | x :: xs =>
      if e.timestamp ≤ x.timestamp then e :: x :: xs
      else x :: orderedInsertTs e xs

/-- `sorted(events, key=lambda e: e.timestamp)` (stable). -/
def pySortedTs : List EventEnvelope → List EventEnvelope
  | [] => []
  | x :: xs => orderedInsertTs x (pySortedTs xs)

/-- Non-decreasing by timestamp. -/
def SortedByTs (l : List EventEnvelope) : Prop :=
  l.Pairwise (fun a b => a.timestamp ≤ b.timestamp)

/-- `MemoryEventStore.append`: `self._events.append(event)` — no
uniqueness check, never fails. -/
def MemoryEventStore.append (s : StoreState) (e : EventEnvelope) :
    StoreState × Option StorageError :=
  (s ++ [e], none)

/-- `MemoryEventStore.query`: filter by `correlation_id`, stable-sort by
timestamp. -/
def MemoryEventStore.query (s : StoreState) (cid : String) : List EventEnvelope :=
  pySortedTs (s.filter (fun e => e.correlation_id == cid))

/-- `MemoryEventStore.get_all`: stable-sort everything by timestamp. -/
def MemoryEventStore.get_all (s : StoreState) : List EventEnvelope :=
  pySortedTs s

/-- `MemoryEventStore.count`. -/
def MemoryEventStore.count (s : StoreState) : Nat :=
  s.length

/-- `SQLiteEventStore.append`: `INSERT` under `event_id TEXT UNIQUE`; a
duplicate id violates the constraint, the transaction is not committed
(table unchanged) and the error surfaces; otherwise the row is appended
with the next rowid. -/
def SQLiteEventStore.append (s : StoreState) (e : EventEnvelope) :
    StoreState × Option StorageError :=
  if s.any (fun x => x.event_id == e.event_id) then (s, some .storageFailure)
  else (s ++ [e], none)

/-- `SQLiteEventStore.query`:
`SELECT * FROM events WHERE correlation_id = ? ORDER BY timestamp`.
`r` is an admissible result: some permutation of the matching rows that
is sorted on the key (SQL does not fix the order of equal keys; ISO-8601
text of a fixed format compares as the instants do). -/
def SQLiteEventStore.query (s : StoreState) (cid : String)
    (r : List EventEnvelope) : Prop :=
  r.Perm (s.filter (fun e => e.correlation_id == cid)) ∧ SortedByTs r

/-- `SQLiteEventStore.get_all`: `SELECT * FROM events ORDER BY timestamp`,
same admissibility reading. -/
def SQLiteEventStore.get_all (s : StoreState) (r : List EventEnvelope) : Prop :=
  r.Perm s ∧ SortedByTs r

/-! ### Stable-sort lemmas -/

theorem orderedInsertTs_of_forall_le (x : EventEnvelope) (l : List EventEnvelope)
    (h : ∀ z ∈ l, x.timestamp ≤ z.timestamp) :
    orderedInsertTs x l = x :: l := by
  cases l with
  | nil => rfl
  | cons y ys =>
      simp only [orderedInsertTs, if_pos (h y (List.mem_cons_self y ys))]

theorem perm_orderedInsertTs (x : EventEnvelope) (l : List EventEnvelope) :
    (orderedInsertTs x l).Perm (x :: l) := by
  induction l with
  | nil => exact List.Perm.refl _
  | cons y ys ih =>
      by_cases h : x.timestamp ≤ y.timestamp
      · simp [orderedInsertTs, h]
      · simp only [orderedInsertTs, if_neg h]
        exact (ih.cons y).trans (List.Perm.swap x y ys)

theorem perm_pySortedTs (l : List EventEnvelope) : (pySortedTs l).Perm l := by
  induction l with
  | nil => exact List.Perm.refl _
  | cons x xs ih =>
      exact (perm_orderedInsertTs x (pySortedTs xs)).trans (ih.cons x)

theorem sortedByTs_orderedInsertTs (x : EventEnvelope) (l : List EventEnvelope)
    (hl : SortedByTs l) : SortedByTs (orderedInsertTs x l) := by
  induction l with
  | nil => simp [orderedInsertTs, SortedByTs]
  | cons y ys ih =>
      rcases List.pairwise_cons.mp hl with ⟨hy, hys⟩
      by_cases h : x.timestamp ≤ y.timestamp
      · simp only [orderedInsertTs, if_pos h]
        refine List.pairwise_cons.mpr ⟨?_, hl⟩
        intro z hz
        rcases List.mem_cons.mp hz with rfl | hz
        · exact h
        · exact le_trans h (hy z hz)
      · simp only [orderedInsertTs, if_neg h]
        refine List.pairwise_cons.mpr ⟨?_, ih hys⟩
        intro z hz
        have hz' := (perm_orderedInsertTs x ys).mem_iff.mp hz
        rcases List.mem_cons.mp hz' with rfl | hz'
        · exact le_of_not_le h
        · exact hy z hz'

theorem sortedByTs_pySortedTs (l : List EventEnvelope) : SortedByTs (pySortedTs l) := by
  induction l with
  | nil => simp [pySortedTs, SortedByTs]
  | cons x xs ih => exact sortedByTs_orderedInsertTs x (pySortedTs xs) ih

/-- Stability of the insert step, observed through the fibers of the sort
key: inserting never reorders elements of equal timestamp. -/
theorem filter_ts_orderedInsertTs (x : EventEnvelope) (l : List EventEnvelope) (t : Nat) :
    (orderedInsertTs x l).filter (fun e => e.timestamp == t) =
      (x :: l).filter (fun e => e.timestamp == t) := by
  induction l with
  | nil => rfl
  | cons y ys ih =>
      by_cases h : x.timestamp ≤ y.timestamp
      · simp only [orderedInsertTs, if_pos h]
      · simp only [orderedInsertTs, if_neg h]
        rw [List.filter_cons, ih]
        by_cases hx : x.timestamp = t <;> by_cases hy : y.timestamp = t
        · exact absurd (le_of_eq (hx.trans hy.symm)) h
        · simp [List.filter_cons, hx, hy]
        · simp [List.filter_cons, hx, hy]
        · simp [List.filter_cons, hx, hy]

/-- Stability of the whole sort: each timestamp fiber of the output is the
corresponding fiber of the input — ties are broken by input (append)
order. -/
theorem filter_ts_pySortedTs (l : List EventEnvelope) (t : Nat) :
    (pySortedTs l).filter (fun e => e.timestamp == t) =
      l.filter (fun e => e.timestamp == t) := by
  induction l with
  | nil => rfl
  | cons x xs ih =>
      rw [pySortedTs, filter_ts_orderedInsertTs, List.filter_cons, List.filter_cons, ih]

theorem filter_orderedInsertTs (p : EventEnvelope → Bool) (x : EventEnvelope)
    (l : List EventEnvelope) (hl : SortedByTs l) :
    (orderedInsertTs x l).filter p =
      if p x then orderedInsertTs x (l.filter p) else l.filter p := by
  induction l with
  | nil => by_cases hx : p x <;> simp [orderedInsertTs, hx]
  | cons y ys ih =>
      rcases List.pairwise_cons.mp hl with ⟨hy, hys⟩
      by_cases h : x.timestamp ≤ y.timestamp
      · simp only [orderedInsertTs, if_pos h]
        by_cases hx : p x
        · have hall : ∀ z ∈ (y :: ys).filter p, x.timestamp ≤ z.timestamp := by
            intro z hz
            have hz' := List.mem_of_mem_filter hz
            rcases List.mem_cons.mp hz' with rfl | hz'
            · exact h
            · exact le_trans h (hy z hz')
          rw [orderedInsertTs_of_forall_le x _ hall]
          simp [List.filter_cons, hx]
        · simp [List.filter_cons, hx]
      · simp only [orderedInsertTs, if_neg h]
        by_cases hx : p x
        · by_cases hpy : p y
          · simp only [List.filter_cons, hpy, if_pos, ih hys, hx, if_true]
            have : orderedInsertTs x (y :: ys.filter p) = y :: orderedInsertTs x (ys.filter p) := by
              simp only [orderedInsertTs, if_neg h]
            simp [this]
          · simp [List.filter_cons, hpy, ih hys, hx]
        · simp [List.filter_cons, ih hys, hx]

/-- A stable sort commutes with filtering: sorting then filtering equals
filtering then sorting. -/
theorem filter_pySortedTs (p : EventEnvelope → Bool) (l : List EventEnvelope) :
    (pySortedTs l).filter p = pySortedTs (l.filter p) := by
  induction l with
  | nil => rfl
  | cons x xs ih =>
      rw [pySortedTs, filter_orderedInsertTs p x _ (sortedByTs_pySortedTs xs), ih]
      by_cases hx : p x
      · simp [List.filter_cons, hx, pySortedTs]
      · simp [List.filter_cons, hx]

/-! ## Observer (`observer.py`)

`Observer.record` builds an envelope (`EventEnvelope.create` — fresh
uuid4 id and `datetime.now()` timestamp, both inputs of the model),
awaits `self._store.append(event)`, then awaits
`self._notify_subscribers(event)`, then returns the envelope.
`Observer.record_raw` runs the same append-then-notify path on a
pre-built envelope.  A raised store exception aborts the call before any
subscriber task is created.  `_notify_subscribers` gathers one
`_safe_callback` per registered subscription; `_safe_callback` awaits the
callback inside `try/except Exception` and only logs a failure. -/

/-- One subscription: the id handed out by `subscribe` and the callback.
A callback models the awaited coroutine: `.error msg` is a raised
exception (swallowed by `_safe_callback`), `.ok ()` a normal return. -/
structure Subscription where
  sub_id : String
  callback : EventEnvelope → Except String Unit

/-- What a finished `record`/`record_raw` call left behind: the store
state, the log of subscriber invocations (subscription id paired with the
outcome `_safe_callback` observed and swallowed), and the value returned
to the caller (`.error` models the propagated store exception). -/
structure RecordResult where
  store : StoreState
  notified : List (String × Except String Unit)
  result : Except StorageError EventEnvelope

/-- `Observer._notify_subscribers` + `_safe_callback`: every current
subscription's callback is invoked with the event; failures are caught
per callback and never escape. -/
def Observer.notify_subscribers (subs : List Subscription) (e : EventEnvelope) :
    List (String × Except String Unit) :=
  subs.map (fun sub => (sub.sub_id, sub.callback e))

/-- The shared append-then-notify path of `Observer.record` (lines 71–78)
and `Observer.record_raw` (lines 85–87), parameterized by the store's
`append`: if `append` raises, the exception propagates and no subscriber
is notified; otherwise all subscribers are notified and the envelope is
returned. -/
def Observer.record_envelope
    (append : StoreState → EventEnvelope → StoreState × Option StorageError)
    (subs : List Subscription) (s : StoreState) (e : EventEnvelope) : RecordResult :=
  match append s e with
  | (s2, some err) => { store := s2, notified := [], result := .error err }
  | (s2, none) =>
      { store := s2
        notified := Observer.notify_subscribers subs e
        result := .ok e }

/-! ## Projections -/

/-- `datetime.isoformat()` — abstracted to a decimal rendering of the
tick (both are injective, order-preserving encodings; no claim inspects
the text of a formatted timestamp). -/
def isoformat (t : Nat) : String :=
  toString t

/-- `datetime.strftime(fmt)` — abstracted the same way. -/
def strftime (t : Nat) (fmt : String) : String :=
  toString t

/-- Python truthiness of an optional string (`if event.source.agent_name:`
treats both `None` and `""` as false). -/
def pyTruthyStr : Option String → Option String
  | Option.some s => if s = "" then Option.none else Option.some s
  | Option.none => Option.none

/-- Python `repr` of a JSON value (quotes written as `\x27`, braces as
`\x7b`/`\x7d`; the exact text is never load-bearing for a claim). -/
def JsonValue.pyRepr : JsonValue → String
  | .str s => "\x27" ++ s ++ "\x27"
  | .num n => toString n
  | .boolean b => if b then "True" else "False"
  | .null => "None"
  | .arr xs =>
      "[" ++ String.intercalate ", " (xs.attach.map (fun x => JsonValue.pyRepr x.1)) ++ "]"
  | .obj fs =>
      "\x7b" ++
        String.intercalate ", "
          (fs.attach.map (fun kv => "\x27" ++ kv.1.1 ++ "\x27: " ++ JsonValue.pyRepr kv.1.2)) ++
        "\x7d"
decreasing_by
  · have := List.sizeOf_lt_of_mem x.2
    simp only [JsonValue.arr.sizeOf_spec]
    omega
  · have h1 := List.sizeOf_lt_of_mem kv.2
    have h2 : sizeOf kv.1.2 < sizeOf kv.1 := by
      obtain ⟨k, v⟩ := kv.1
      simp only [Prod.mk.sizeOf_spec]
      omega
    simp only [JsonValue.obj.sizeOf_spec]
    omega

/-- Python `str()` as used in f-strings: a `str` renders as itself, every
other value as its `repr`. -/
def pyStr : JsonValue → String
  | .str s => s
  | v => v.pyRepr

/-- `"\n".join(lines)`. -/
def joinLines : List String → String
  | [] => ""
  | [x] => x
  | x :: y :: xs => x ++ "\n" ++ joinLines (y :: xs)

/-- Raised by `SnapshotProjection.project([])`
(`raise ValueError("Cannot project empty event list")`) — the spec's
`EmptyProjectionInput` condition. -/
inductive ProjectionError where
  | emptyProjectionInput
deriving DecidableEq, Repr

/-- `ChatSnapshot` (`snapshot.py`) — the derived view.  Fields the Python
code may populate with arbitrary payload values are `JsonValue`-typed. -/
structure ChatSnapshot where
  chat_id : String
  chat_type : String
  timestamp : Nat
  messages : List Payload
  metadata : Payload := []
  agent_states : List (String × Payload) := []
  context_variables : Payload := []
  speaker_selection_method : Option String := Option.none
  max_round : Option Nat := Option.none
  admin_name : Option String := Option.none
  speaker_transitions : Option (List (String × List String)) := Option.none
  last_speaker : Option JsonValue := Option.none
  round_count : Nat := 0
  termination_reason : Option JsonValue := Option.none
  is_terminated : Bool := false

/-- Add to the agent set (`set.add`); the set is modelled as a
duplicate-free list, since only its cardinality is observed.  Only string
names occur (non-string payload values under `"agent_name"`/`"name"`
never arise in the observed flows). -/
def addAgent (agents : List String) (a : String) : List String :=
  if a ∈ agents then agents else agents ++ [a]

/-- `SnapshotProjection._extract_agents`. -/
def SnapshotProjection.extract_agents (events : List EventEnvelope) : List String :=
  events.foldl
    (fun agents event =>
      let agents :=
        match pyTruthyStr event.source.agent_name with
        | Option.some a => addAgent agents a
        | Option.none => agents
      let agents :=
        match event.payload.get "agent_name" with
        | Option.some (.str a) => addAgent agents a
        | _ => agents
      match event.payload.get "name" with
      | Option.some (.str a) => addAgent agents a
      | _ => agents)
    []

/-- One iteration of `SnapshotProjection._events_to_messages`: message,
tool-call and tool-result events become the payload tagged with the
originating event id, type and timestamp; `name` is backfilled from the
source when absent. -/
def SnapshotProjection.event_to_message (event : EventEnvelope) : Option Payload :=
  if event.event_type = .execution_message ∨ event.event_type = .execution_tool_call ∨
      event.event_type = .execution_tool_result then
    let msg := event.payload
    let msg := msg.set "_event_id" (.str event.event_id)
    let msg := msg.set "_event_type" (.str event.event_type.value)
    let msg := msg.set "_timestamp" (.str (isoformat event.timestamp))
    let msg :=
      if msg.contains "name" then msg
      else
        match pyTruthyStr event.source.agent_name with
        | Option.some a => msg.set "name" (.str a)
        | Option.none => msg
    Option.some msg
  else Option.none

/-- `SnapshotProjection._events_to_messages`. -/
def SnapshotProjection.events_to_messages (events : List EventEnvelope) : List Payload :=
  events.filterMap SnapshotProjection.event_to_message

/-- `agent_states[agent_name][key] = value`. -/
def updateAgentState (states : List (String × Payload)) (a k : String) (v : JsonValue) :
    List (String × Payload) :=
  states.map (fun kv => if kv.1 = a then (kv.1, kv.2.set k v) else kv)

/-- `SnapshotProjection._extract_agent_states`. -/
def SnapshotProjection.extract_agent_states (events : List EventEnvelope) :
    List (String × Payload) :=
  events.foldl
    (fun states event =>
      match pyTruthyStr event.source.agent_name with
      | Option.none => states
      | Option.some a =>
          let states :=
            if states.any (fun kv => kv.1 == a) then states
            else states ++ [(a, [("name", .str a)])]
          let states :=
            match event.payload.get "system_message" with
            | Option.some v => updateAgentState states a "system_message" v
            | Option.none => states
          match event.payload.get "llm_config" with
          | Option.some v => updateAgentState states a "llm_config" v
          | Option.none => states)
    []

/-- `SnapshotProjection._extract_context_variables`.  A non-mapping value
under `"context_variables"` would raise `TypeError` in
`dict.update`; it never occurs and is ignored here. -/
def SnapshotProjection.extract_context_variables (events : List EventEnvelope) : Payload :=
  events.foldl
    (fun ctx event =>
      if event.event_type = .execution_state_change then
        match event.payload.get "context_variables" with
        | Option.some (.obj fs) => ctx.update fs
        | _ => ctx
      else ctx)
    []

/-- The backward scan of `SnapshotProjection._extract_termination` over
the reversed event list. -/
def SnapshotProjection.termination_scan : List EventEnvelope → Option JsonValue × Bool
  | [] => (Option.none, false)
  | e :: rest =>
      if e.event_type = .execution_completed ∨ e.event_type = .system_workflow_completed then
        (e.payload.get "reason", true)
      else SnapshotProjection.termination_scan rest

/-- `SnapshotProjection._extract_termination`: scan from the most recent
event backward for a completion-kind event. -/
def SnapshotProjection.extract_termination (events : List EventEnvelope) :
    Option JsonValue × Bool :=
  SnapshotProjection.termination_scan events.reverse

/-- The backward scan of `SnapshotProjection._extract_last_speaker`. -/
def SnapshotProjection.last_speaker_scan : List EventEnvelope → Option JsonValue
  | [] => Option.none
  | e :: rest =>
      if e.event_type = .execution_message then
        match pyTruthyStr e.source.agent_name with
        | Option.some a => Option.some (.str a)
        | Option.none => e.payload.get "name"
      else SnapshotProjection.last_speaker_scan rest

/-- `SnapshotProjection._extract_last_speaker`. -/
def SnapshotProjection.extract_last_speaker (events : List EventEnvelope) : Option JsonValue :=
  SnapshotProjection.last_speaker_scan events.reverse

/-- `SnapshotProjection._count_rounds`: the number of message-kind
events. -/
def SnapshotProjection.count_rounds (events : List EventEnvelope) : Nat :=
  (events.filter (fun e => e.event_type == EventType.execution_message)).length

/-- `SnapshotProjection.project`. -/
def SnapshotProjection.project (events : List EventEnvelope) :
    Except ProjectionError ChatSnapshot :=
  match events with
  | [] => .error .emptyProjectionInput
  | e0 :: rest =>
      let evs := e0 :: rest
      let lastE := evs.getLast (List.cons_ne_nil e0 rest)
      let termination := SnapshotProjection.extract_termination evs
      .ok
        { chat_id := e0.correlation_id
          chat_type :=
            if (SnapshotProjection.extract_agents evs).length > 2 then "group" else "direct"
          timestamp := lastE.timestamp
          messages := SnapshotProjection.events_to_messages evs
          metadata :=
            [("event_count", .num evs.length),
             ("first_event", .str e0.event_id),
             ("last_event", .str lastE.event_id),
             ("start_time", .str (isoformat e0.timestamp)),
             ("end_time", .str (isoformat lastE.timestamp))]
          agent_states := SnapshotProjection.extract_agent_states evs
          context_variables := SnapshotProjection.extract_context_variables evs
          last_speaker := SnapshotProjection.extract_last_speaker evs
          round_count := SnapshotProjection.count_rounds evs
          termination_reason := termination.1
          is_terminated := termination.2 }

/-- `TranscriptProjection.__init__` configuration (defaults as in the
source). -/
structure TranscriptConfig where
  include_timestamps : Bool := true
  include_tool_calls : Bool := true
  include_metadata : Bool := false
  timestamp_format : String := "%H:%M:%S"

/-- The default-constructed `TranscriptProjection()`. -/
def TranscriptConfig.default : TranscriptConfig := {}

/-- `TranscriptProjection._format_event`: the if-chain over event kinds;
a kind matching no branch falls through to the `include_metadata`
fallback and otherwise renders nothing. -/
def TranscriptProjection.format_event (cfg : TranscriptConfig) (event : EventEnvelope) :
    Option String :=
  let timestamp_str :=
    if cfg.include_timestamps then
      "[" ++ strftime event.timestamp cfg.timestamp_format ++ "] "
    else ""
  let agent :=
    match pyTruthyStr event.source.agent_name with
    | Option.some a => a
    | Option.none => "System"
  if event.event_type = .execution_message then
    let content := event.payload.getD "content" (.str "")
    if content.falsy then Option.none
    else Option.some (timestamp_str ++ agent ++ ": " ++ pyStr content)
  else if event.event_type = .execution_tool_call ∧ cfg.include_tool_calls = true then
    let tool_name := pyStr (event.payload.getD "tool_name" (.str "unknown"))
    let args := pyStr (event.payload.getD "arguments" (.obj []))
    Option.some (timestamp_str ++ agent ++ " -> [TOOL: " ++ tool_name ++ "] " ++ args)
  else if event.event_type = .execution_tool_result ∧ cfg.include_tool_calls = true then
    let tool_name := pyStr (event.payload.getD "tool_name" (.str "unknown"))
    let result_str := pyStr (event.payload.getD "result" (.str ""))
    let result_str :=
      if result_str.length > 200 then (result_str.take 200) ++ "..." else result_str
    Option.some (timestamp_str ++ "[TOOL RESULT: " ++ tool_name ++ "] " ++ result_str)
  else if event.event_type = .execution_handoff then
    let from_agent := pyStr (event.payload.getD "from_agent" (.str "?"))
    let to_agent := pyStr (event.payload.getD "to_agent" (.str "?"))
    Option.some (timestamp_str ++ "[HANDOFF] " ++ from_agent ++ " -> " ++ to_agent)
  else if event.event_type = .system_workflow_started then
    Option.some (timestamp_str ++ "[WORKFLOW STARTED]")
  else if event.event_type = .system_workflow_completed then
    let reason := pyStr (event.payload.getD "reason" (.str ""))
    Option.some (timestamp_str ++ "[WORKFLOW COMPLETED] " ++ reason)
  else if event.event_type = .execution_completed then
    let reason := pyStr (event.payload.getD "reason" (.str ""))
    Option.some (timestamp_str ++ "[EXECUTION COMPLETED] " ++ reason)
  else if cfg.include_metadata then
    Option.some (timestamp_str ++ "[" ++ event.event_type.value ++ "] " ++
      pyStr (.obj event.payload))
  else Option.none

/-- `TranscriptProjection.project`. -/
def TranscriptProjection.project (cfg : TranscriptConfig) (events : List EventEnvelope) :
    String :=
  match events with
  | [] => ""
  | e0 :: rest =>
      let evs := e0 :: rest
      let lastE := evs.getLast (List.cons_ne_nil e0 rest)
      let headerLines :=
        ["=== Transcript: " ++ e0.correlation_id ++ " ===",
         "Events: " ++ toString evs.length,
         "Start: " ++ isoformat e0.timestamp,
         "End: " ++ isoformat lastE.timestamp,
         ""]
      let body := evs.filterMap (TranscriptProjection.format_event cfg)
      joinLines (headerLines ++ body ++ ["", "=== End Transcript ==="])

/-- `MarkdownTranscriptProjection._format_event` — format-fixed, no
configuration; note it has *no* branches for `workflow_started`,
`workflow_completed` or `execution_completed` (the `â†’` in the handoff
line reproduces the mojibake in the source). -/
def MarkdownTranscriptProjection.format_event (event : EventEnvelope) : Option String :=
  let agent :=
    match pyTruthyStr event.source.agent_name with
    | Option.some a => a
    | Option.none => "System"
  let timestamp := strftime event.timestamp "%H:%M:%S"
  if event.event_type = .execution_message then
    let content := event.payload.getD "content" (.str "")
    if content.falsy then Option.none
    else Option.some ("**" ++ agent ++ "** (" ++ timestamp ++ "):\n> " ++ pyStr content)
  else if event.event_type = .execution_tool_call then
    let tool_name := pyStr (event.payload.getD "tool_name" (.str "unknown"))
    let args := pyStr (event.payload.getD "arguments" (.obj []))
    Option.some ("**" ++ agent ++ "** (" ++ timestamp ++ ") called `" ++ tool_name ++
      "`:\n```json\n" ++ args ++ "\n```")
  else if event.event_type = .execution_tool_result then
    let tool_name := pyStr (event.payload.getD "tool_name" (.str "unknown"))
    let result := pyStr (event.payload.getD "result" (.str ""))
    Option.some ("**Tool Result** (`" ++ tool_name ++ "`):\n```\n" ++ result ++ "\n```")
  else if event.event_type = .execution_handoff then
    let from_agent := pyStr (event.payload.getD "from_agent" (.str "?"))
    let to_agent := pyStr (event.payload.getD "to_agent" (.str "?"))
    Option.some ("*Handoff: " ++ from_agent ++ " â†’ " ++ to_agent ++ "*")
  else Option.none

/-- `MarkdownTranscriptProjection.project`. -/
def MarkdownTranscriptProjection.project (events : List EventEnvelope) : String :=
  match events with
  | [] => ""
  | e0 :: rest =>
      let evs := e0 :: rest
      let lastE := evs.getLast (List.cons_ne_nil e0 rest)
      let headerLines :=
        ["# Transcript: " ++ e0.correlation_id,
         "",
         "**Events:** " ++ toString evs.length,
         "**Start:** " ++ isoformat e0.timestamp,
         "**End:** " ++ isoformat lastE.timestamp,
         "",
         "---",
         ""]
      let body :=
        (evs.filterMap MarkdownTranscriptProjection.format_event).flatMap
          (fun line => [line, ""])
      joinLines (headerLines ++ body)

/-! ## Enum round-trip helper lemmas -/

theorem eventType_ofValue_value (t : EventType) : EventType.ofValue t.value = some t := by
  cases t <;> rfl

theorem eventOrigin_ofValue_value (o : EventOrigin) : EventOrigin.ofValue o.value = some o := by
  cases o <;> rfl

theorem runtimeType_ofValue_value (r : RuntimeType) : RuntimeType.ofValue r.value = some r := by
  cases r <;> rfl

theorem EventSource.from_dict_to_dict (s : EventSource) :
    EventSource.from_dict s.to_dict = some s := by
  obtain ⟨o, r, an⟩ := s
  simp [EventSource.to_dict, EventSource.from_dict, eventOrigin_ofValue_value,
    runtimeType_ofValue_value]

/-- Claim C4: serialization round-trip — for every envelope `e`,
`EventEnvelope.from_dict (e.to_dict)` reproduces `e` in all fields
(`event_id`, `event_type`, `timestamp`, `source`, `correlation_id`,
`payload`, `causation_id`). -/
theorem envelope_roundtrip (e : EventEnvelope) :
    EventEnvelope.from_dict e.to_dict = some e := by
  obtain ⟨id, t, ts, src, cid, pl, caus⟩ := e
  simp [EventEnvelope.to_dict, EventEnvelope.from_dict, eventType_ofValue_value,
    EventSource.from_dict_to_dict]

/-- Claim C8: `SnapshotProjection.project` on the empty event list fails
with the `EmptyProjectionInput` condition (the
`ValueError("Cannot project empty event list")` raised at
`snapshot.py:30`), while `TranscriptProjection().project([])` returns the
empty string. -/
theorem empty_projection_behavior :
    SnapshotProjection.project [] = .error .emptyProjectionInput ∧
    TranscriptProjection.project TranscriptConfig.default [] = "" :=
  ⟨rfl, rfl⟩

/-! ## Claim C3 scenario -/

/-- An agent-originated event source, as an ingest adapter would set it. -/
def scenarioSource (a : String) : EventSource :=
  { origin := .agent, agent_name := Option.some a }

/-- The C3 scenario: 3 message events for agents "A"/"B" alternating,
then one tool-call, one tool-result, and a completion event whose payload
reason is `"done"`, all with correlation_id `"s1"` and increasing
timestamps. -/
def scenarioEvents : List EventEnvelope :=
  [{ event_id := "s1-1", event_type := .execution_message, timestamp := 1,
     source := scenarioSource "A", correlation_id := "s1",
     payload := [("content", .str "hello")] },
   { event_id := "s1-2", event_type := .execution_message, timestamp := 2,
     source := scenarioSource "B", correlation_id := "s1",
     payload := [("content", .str "hi")] },
   { event_id := "s1-3", event_type := .execution_message, timestamp := 3,
     source := scenarioSource "A", correlation_id := "s1",
     payload := [("content", .str "how are you")] },
   { event_id := "s1-4", event_type := .execution_tool_call, timestamp := 4,
     source := scenarioSource "A", correlation_id := "s1",
     payload := [("tool_name", .str "search"), ("arguments", .obj [])] },
   { event_id := "s1-5", event_type := .execution_tool_result, timestamp := 5,
     source := scenarioSource "A", correlation_id := "s1",
     payload := [("tool_name", .str "search"), ("result", .str "ok")] },
   { event_id := "s1-6", event_type := .execution_completed, timestamp := 6,
     source := { origin := .system }, correlation_id := "s1",
     payload := [("reason", .str "done")] }]

/-- Claim C3: on the scenario sequence, `SnapshotProjection.project`
yields a snapshot with `round_count = 3`, `is_terminated = true`,
`termination_reason = "done"`, and a `messages` list of length 5. -/
theorem scenario_snapshot :
    (SnapshotProjection.project scenarioEvents).map
        (fun snap =>
          (snap.round_count, snap.is_terminated, snap.termination_reason,
            snap.messages.length)) =
      .ok (3, true, Option.some (.str "done"), 5) :=
  rfl

/-! ## Observer claims -/

/-- Claim C1: on the shared append-then-notify path of `Observer.record`
and `Observer.record_raw`, a failed append propagates its error to the
caller and notifies no subscriber; a successful append notifies every
subscriber and only then is the envelope returned; for the SQLite backend
a failed append (duplicate `event_id`, rejected transaction) leaves the
store's prior state unchanged, and the in-memory backend's append never
fails. -/
theorem record_append_before_notify
    (append : StoreState → EventEnvelope → StoreState × Option StorageError)
    (subs : List Subscription) (s : StoreState) (e : EventEnvelope) :
    (∀ err, (append s e).2 = some err →
      Observer.record_envelope append subs s e =
        { store := (append s e).1, notified := [], result := .error err }) ∧
    ((append s e).2 = none →
      Observer.record_envelope append subs s e =
        { store := (append s e).1
          notified := Observer.notify_subscribers subs e
          result := .ok e }) ∧
    ((SQLiteEventStore.append s e).2.isSome → (SQLiteEventStore.append s e).1 = s) ∧
    (MemoryEventStore.append s e).2 = none := by
  refine ⟨?_, ?_, ?_, rfl⟩
  · intro err herr
    rcases h : append s e with ⟨s2, oerr⟩
    rw [h] at herr
    cases oerr with
    | none => exact absurd herr (by simp)
    | some err2 =>
        obtain rfl : err2 = err := Option.some.inj herr
        simp [Observer.record_envelope, h]
  · intro hok
    rcases h : append s e with ⟨s2, oerr⟩
    rw [h] at hok
    cases oerr with
    | none => simp [Observer.record_envelope, h]
    | some err2 => exact absurd hok (by simp)
  · intro hsome
    unfold SQLiteEventStore.append at hsome ⊢
    by_cases hd : (s.any (fun x => x.event_id == e.event_id)) = true
    · simp [hd]
    · simp [hd] at hsome

/-- A sample envelope used to exercise the store paths. -/
def sampleEvent : EventEnvelope :=
  { event_id := "evt-1", event_type := .execution_message, timestamp := 10,
    source := { origin := .system }, correlation_id := "run-1",
    payload := [("content", .str "x")] }

theorem record_append_before_notify_witness :
    (SQLiteEventStore.append [sampleEvent] sampleEvent).2 = some .storageFailure ∧
    Observer.record_envelope SQLiteEventStore.append [] [sampleEvent] sampleEvent =
      { store := (SQLiteEventStore.append [sampleEvent] sampleEvent).1
        notified := []
        result := .error .storageFailure } :=
  ⟨rfl,
    (record_append_before_notify SQLiteEventStore.append [] [sampleEvent] sampleEvent).1
      .storageFailure rfl⟩

/-- Claim C5: if some subscriber's callback raises on an event, every
registered subscriber is still invoked with that exact event, and
`record` still succeeds, appending the event and returning the
envelope. -/
theorem subscriber_isolation (subs : List Subscription) (s : StoreState)
    (e : EventEnvelope)
    (hfail : ∃ sub ∈ subs, ∃ msg, sub.callback e = .error msg) :
    (Observer.record_envelope MemoryEventStore.append subs s e).result = .ok e ∧
    (Observer.record_envelope MemoryEventStore.append subs s e).store = s ++ [e] ∧
    ∀ sub ∈ subs,
      (sub.sub_id, sub.callback e) ∈
        (Observer.record_envelope MemoryEventStore.append subs s e).notified := by
  refine ⟨rfl, rfl, ?_⟩
  intro sub hsub
  exact List.mem_map_of_mem (fun sub => (sub.sub_id, sub.callback e)) hsub

/-- A subscriber whose callback raises on every event. -/
def failingSub : Subscription :=
  { sub_id := "sub-fail", callback := fun _ => .error "boom" }

/-- A subscriber whose callback returns normally. -/
def okSub : Subscription :=
  { sub_id := "sub-ok", callback := fun _ => .ok () }

theorem subscriber_isolation_witness :
    (∃ sub ∈ [failingSub, okSub], ∃ msg, sub.callback sampleEvent = .error msg) ∧
    ((Observer.record_envelope MemoryEventStore.append [failingSub, okSub] []
        sampleEvent).result = .ok sampleEvent ∧
      (Observer.record_envelope MemoryEventStore.append [failingSub, okSub] []
        sampleEvent).store = [] ++ [sampleEvent] ∧
      ∀ sub ∈ [failingSub, okSub],
        (sub.sub_id, sub.callback sampleEvent) ∈
          (Observer.record_envelope MemoryEventStore.append [failingSub, okSub] []
            sampleEvent).notified) :=
  ⟨⟨failingSub, List.mem_cons_self _ _, "boom", rfl⟩,
    subscriber_isolation [failingSub, okSub] [] sampleEvent
      ⟨failingSub, List.mem_cons_self _ _, "boom", rfl⟩⟩

/-- Claim C6 counterexample: the in-memory store performs no `event_id`
uniqueness check — appending an envelope whose id is already in the store
succeeds (no `StorageFailure`) and stores the duplicate, refuting the
claim for "every event store". -/
theorem duplicate_id_memory_counterexample :
    ([sampleEvent].any (fun x => x.event_id == sampleEvent.event_id)) = true ∧
    MemoryEventStore.append [sampleEvent] sampleEvent =
      ([sampleEvent, sampleEvent], none) :=
  ⟨rfl, rfl⟩

/-- Claim C6, amended: the SQLite store rejects an append whose
`event_id` already exists with a `StorageFailure` and keeps the table
unchanged (`UNIQUE` constraint, uncommitted transaction); the in-memory
store performs no uniqueness check and appends the duplicate without
error. -/
theorem duplicate_id_per_backend (s : StoreState) (e : EventEnvelope) :
    ((s.any (fun x => x.event_id == e.event_id)) = true →
      SQLiteEventStore.append s e = (s, some .storageFailure)) ∧
    MemoryEventStore.append s e = (s ++ [e], none) := by
  refine ⟨?_, rfl⟩
  intro hd
  simp [SQLiteEventStore.append, hd]

theorem duplicate_id_per_backend_witness :
    ([sampleEvent].any (fun x => x.event_id == sampleEvent.event_id)) = true ∧
    SQLiteEventStore.append [sampleEvent] sampleEvent =
      ([sampleEvent], some .storageFailure) :=
  ⟨rfl, (duplicate_id_per_backend [sampleEvent] sampleEvent).1 rfl⟩

/-- An envelope with an empty `correlation_id` (the input the spec says
must be rejected with a `ValidationFailure`). -/
def emptyCidEvent : EventEnvelope :=
  { event_id := "evt-empty-cid", event_type := .execution_message, timestamp := 0,
    source := { origin := .system }, correlation_id := "",
    payload := [("content", .str "x")] }

/-- Claim C7 counterexample: `Observer.record` performs no validation —
recording an event with an empty `correlation_id` raises nothing, appends
the event to the store, and returns the envelope, refuting the claimed
synchronous `ValidationFailure`. -/
theorem empty_cid_accepted_counterexample :
    emptyCidEvent.correlation_id = "" ∧
    (Observer.record_envelope MemoryEventStore.append [] [] emptyCidEvent).result =
      .ok emptyCidEvent ∧
    (Observer.record_envelope MemoryEventStore.append [] [] emptyCidEvent).store =
      [emptyCidEvent] ∧
    ∀ err,
      (Observer.record_envelope MemoryEventStore.append [] [] emptyCidEvent).result ≠
        .error err := by
  refine ⟨rfl, rfl, rfl, ?_⟩
  intro err h
  simp [Observer.record_envelope, MemoryEventStore.append] at h

/-- Claim C7, amended: the core performs no correlation_id validation —
`Observer.record` with an empty `correlation_id` succeeds, appends the
event, and notifies subscribers exactly as for any other event (the only
missing-correlation_id rejection lives in the out-of-scope ag2 ingest
adapter; an out-of-enum `event_type` cannot reach the typed `record`
interface, and an unknown wire value fails only at deserialization,
`EventType.ofValue`). -/
theorem record_skips_validation (subs : List Subscription) (s : StoreState)
    (e : EventEnvelope) (h : e.correlation_id = "") :
    Observer.record_envelope MemoryEventStore.append subs s e =
      { store := s ++ [e]
        notified := Observer.notify_subscribers subs e
        result := .ok e } :=
  rfl

theorem record_skips_validation_witness :
    emptyCidEvent.correlation_id = "" ∧
    Observer.record_envelope MemoryEventStore.append [okSub] [] emptyCidEvent =
      { store := [] ++ [emptyCidEvent]
        notified := Observer.notify_subscribers [okSub] emptyCidEvent
        result := .ok emptyCidEvent } :=
  ⟨rfl, record_skips_validation [okSub] [] emptyCidEvent rfl⟩

/-! ## Claim C2: query ordering -/

/-- Two events with equal timestamps under one correlation id, appended
in the order `twinA` then `twinB`. -/
def twinA : EventEnvelope :=
  { event_id := "twin-a", event_type := .execution_message, timestamp := 0,
    source := { origin := .system }, correlation_id := "c", payload := [] }

def twinB : EventEnvelope :=
  { event_id := "twin-b", event_type := .execution_message, timestamp := 0,
    source := { origin := .system }, correlation_id := "c", payload := [] }

/-- Claim C2 counterexample: the SQLite backend's
`... ORDER BY timestamp` fixes only the sort key, not the order of equal
keys, so "ties broken stably by append order" fails for it: with two
equal-timestamp rows appended A-then-B, the reversed result `[B, A]` is
an admissible query answer whose timestamp fiber disagrees with append
order. -/
theorem sqlite_tie_order_counterexample :
    ¬ (∀ (s : StoreState) (cid : String) (r : List EventEnvelope),
        SQLiteEventStore.query s cid r →
        ∀ t, r.filter (fun e => e.timestamp == t) =
          (s.filter (fun e => e.correlation_id == cid)).filter
            (fun e => e.timestamp == t)) := by
  intro hcl
  have hadm : SQLiteEventStore.query [twinA, twinB] "c" [twinB, twinA] := by
    constructor
    · show List.Perm [twinB, twinA] ([twinA, twinB].filter fun e => e.correlation_id == "c")
      rw [show ([twinA, twinB].filter fun e => e.correlation_id == "c") =
        [twinA, twinB] from rfl]
      exact List.Perm.swap twinA twinB []
    · simp [SortedByTs, twinA, twinB]
  have h0 := hcl [twinA, twinB] "c" [twinB, twinA] hadm 0
  rw [show (([twinA, twinB].filter fun e => e.correlation_id == "c").filter
      fun e => e.timestamp == 0) = [twinA, twinB] from rfl] at h0
  rw [show (([twinB, twinA] : List EventEnvelope).filter fun e => e.timestamp == 0) =
      [twinB, twinA] from rfl] at h0
  exact absurd (congrArg (List.map (fun e => e.event_id)) h0) (by decide)

/-- Claim C2, amended: the in-memory backend satisfies the claim in full —
`query(correlation_id)` is the appended events with that id, sorted
non-decreasing by timestamp with ties kept in append order, and equals
`get_all()` filtered to that id; the SQLite backend guarantees only that
any admissible result is sorted non-decreasing by timestamp and is a
permutation of the appended events with that id — the order of
equal-timestamp rows (and hence agreement with a `get_all()` filter) is
unspecified. -/
theorem query_ordering_per_backend (s : StoreState) (cid : String) :
    SortedByTs (MemoryEventStore.query s cid) ∧
    (∀ t, (MemoryEventStore.query s cid).filter (fun e => e.timestamp == t) =
      (s.filter (fun e => e.correlation_id == cid)).filter
        (fun e => e.timestamp == t)) ∧
    (MemoryEventStore.query s cid).Perm
      (s.filter (fun e => e.correlation_id == cid)) ∧
    MemoryEventStore.query s cid =
      (MemoryEventStore.get_all s).filter (fun e => e.correlation_id == cid) ∧
    (∀ r, SQLiteEventStore.query s cid r →
      SortedByTs r ∧ r.Perm (s.filter (fun e => e.correlation_id == cid))) := by
  refine ⟨sortedByTs_pySortedTs _, ?_, perm_pySortedTs _, ?_, ?_⟩
  · intro t
    exact filter_ts_pySortedTs _ t
  · rw [MemoryEventStore.query, MemoryEventStore.get_all, filter_pySortedTs]
  · intro r hr
    exact ⟨hr.2, hr.1⟩

theorem query_ordering_per_backend_witness :
    SQLiteEventStore.query [twinA, twinB] "c" [twinB, twinA] ∧
    (SortedByTs [twinB, twinA] ∧
      List.Perm [twinB, twinA]
        ([twinA, twinB].filter fun e => e.correlation_id == "c")) := by
  have hadm : SQLiteEventStore.query [twinA, twinB] "c" [twinB, twinA] := by
    constructor
    · show List.Perm [twinB, twinA] ([twinA, twinB].filter fun e => e.correlation_id == "c")
      rw [show ([twinA, twinB].filter fun e => e.correlation_id == "c") =
        [twinA, twinB] from rfl]
      exact List.Perm.swap twinA twinB []
    · simp [SortedByTs, twinA, twinB]
  exact ⟨hadm,
    (query_ordering_per_backend [twinA, twinB] "c").2.2.2.2 [twinB, twinA] hadm⟩

/-! ## Claim C9: rendered event kinds -/

/-- The event kinds the default-configured `TranscriptProjection` can
render: some event of that kind produces a transcript line. -/
def TranscriptProjection.renders_kind (t : EventType) : Prop :=
  ∃ e : EventEnvelope, e.event_type = t ∧
    (TranscriptProjection.format_event TranscriptConfig.default e).isSome = true

/-- The event kinds `MarkdownTranscriptProjection` can render. -/
def MarkdownTranscriptProjection.renders_kind (t : EventType) : Prop :=
  ∃ e : EventEnvelope, e.event_type = t ∧
    (MarkdownTranscriptProjection.format_event e).isSome = true

/-- A `system.workflow_started` event. -/
def wfStartedEvent : EventEnvelope :=
  { event_id := "wf-s", event_type := .system_workflow_started, timestamp := 0,
    source := { origin := .system }, correlation_id := "c", payload := [] }

/-- A `system.workflow_completed` event. -/
def wfCompletedEvent : EventEnvelope :=
  { event_id := "wf-c", event_type := .system_workflow_completed, timestamp := 0,
    source := { origin := .system }, correlation_id := "c",
    payload := [("reason", .str "done")] }

/-- An `execution.completed` event. -/
def execCompletedEvent : EventEnvelope :=
  { event_id := "ex-c", event_type := .execution_completed, timestamp := 0,
    source := { origin := .system }, correlation_id := "c",
    payload := [("reason", .str "done")] }

/-- An `execution.handoff` event. -/
def handoffEvent : EventEnvelope :=
  { event_id := "ho", event_type := .execution_handoff, timestamp := 0,
    source := { origin := .system }, correlation_id := "c",
    payload := [("from_agent", .str "A"), ("to_agent", .str "B")] }

/-- Claim C9 counterexample: the kind coverage of the two transcript
projections is not the same — default `TranscriptProjection` renders
`system.workflow_completed` events (as `[WORKFLOW COMPLETED] ...`) while
`MarkdownTranscriptProjection._format_event` has no branch for that kind
and renders nothing. -/
theorem markdown_kinds_counterexample :
    ¬ (∀ t : EventType, TranscriptProjection.renders_kind t ↔
        MarkdownTranscriptProjection.renders_kind t) := by
  intro hcl
  obtain ⟨e, het, hsome⟩ := (hcl .system_workflow_completed).mp
    ⟨wfCompletedEvent, rfl, by decide⟩
  simp [MarkdownTranscriptProjection.format_event, het] at hsome

/-- Claim C9, amended: every event kind `MarkdownTranscriptProjection`
renders (messages with non-empty content, tool-calls, tool-results,
handoffs) is also rendered by default `TranscriptProjection`, but the
converse fails: workflow-started, workflow-completed and
execution-completed events are rendered by `TranscriptProjection` and
omitted by `MarkdownTranscriptProjection`. -/
theorem markdown_kinds_subset :
    (∀ t : EventType, MarkdownTranscriptProjection.renders_kind t →
      TranscriptProjection.renders_kind t) ∧
    TranscriptProjection.renders_kind .system_workflow_started ∧
    TranscriptProjection.renders_kind .system_workflow_completed ∧
    TranscriptProjection.renders_kind .execution_completed ∧
    ¬ MarkdownTranscriptProjection.renders_kind .system_workflow_started ∧
    ¬ MarkdownTranscriptProjection.renders_kind .system_workflow_completed ∧
    ¬ MarkdownTranscriptProjection.renders_kind .execution_completed := by
  refine ⟨?_, ⟨wfStartedEvent, rfl, by decide⟩, ⟨wfCompletedEvent, rfl, by decide⟩,
    ⟨execCompletedEvent, rfl, by decide⟩, ?_, ?_, ?_⟩
  · rintro t ⟨e, het, hsome⟩
    refine ⟨e, het, ?_⟩
    cases t
    case execution_message =>
      by_cases hc : (e.payload.getD "content" (JsonValue.str "")).falsy
      · simp [MarkdownTranscriptProjection.format_event, het, hc] at hsome
      · simp [TranscriptProjection.format_event, TranscriptConfig.default, het, hc]
    case execution_tool_call =>
      simp [TranscriptProjection.format_event, TranscriptConfig.default, het]
    case execution_tool_result =>
      simp [TranscriptProjection.format_event, TranscriptConfig.default, het]
    case execution_handoff =>
      simp [TranscriptProjection.format_event, TranscriptConfig.default, het]
    all_goals simp [MarkdownTranscriptProjection.format_event, het] at hsome
  · rintro ⟨e, het, hsome⟩
    simp [MarkdownTranscriptProjection.format_event, het] at hsome
  · rintro ⟨e, het, hsome⟩
    simp [MarkdownTranscriptProjection.format_event, het] at hsome
  · rintro ⟨e, het, hsome⟩
    simp [MarkdownTranscriptProjection.format_event, het] at hsome

/-- A message event with non-empty content (rendered by both
projections). -/
def msgEvent : EventEnvelope :=
  { event_id := "m1", event_type := .execution_message, timestamp := 0,
    source := scenarioSource "A", correlation_id := "c",
    payload := [("content", .str "hi")] }

theorem markdown_kinds_subset_witness :
    MarkdownTranscriptProjection.renders_kind .execution_message ∧
    TranscriptProjection.renders_kind .execution_message :=
  ⟨⟨msgEvent, rfl, by decide⟩,
    markdown_kinds_subset.1 .execution_message ⟨msgEvent, rfl, by decide⟩⟩

/-! ## Claim C10: transcript shape -/

theorem joinLines_cons (x : String) (l : List String) (hl : l ≠ []) :
    joinLines (x :: l) = x ++ "\n" ++ joinLines l := by
  cases l with
  | nil => exact absurd rfl hl
  | cons y ys => rfl

theorem joinLines_append_end (ft : String) :
    ∀ body : List String, ∃ mid : String, joinLines (body ++ ["", ft]) = mid ++ "\n" ++ ft
  | [] => ⟨"", rfl⟩
  | x :: body => by
      obtain ⟨mid, hmid⟩ := joinLines_append_end ft body
      refine ⟨x ++ "\n" ++ mid, ?_⟩
      rw [List.cons_append, joinLines_cons x _ (by simp), hmid]
      simp [String.append_assoc]

/-- Claim C10: on every non-empty event list, default
`TranscriptProjection.project` returns a non-empty string that opens with
the header — first event's correlation_id, event count, first and last
timestamps — and closes with the line `=== End Transcript ===`, whatever
the events are (in particular when no event renders a body line). -/
theorem transcript_header_footer (e0 : EventEnvelope) (rest : List EventEnvelope) :
    (∃ mid : String,
      TranscriptProjection.project TranscriptConfig.default (e0 :: rest) =
        "=== Transcript: " ++ e0.correlation_id ++ " ===" ++ "\n" ++
        ("Events: " ++ toString (e0 :: rest).length) ++ "\n" ++
        ("Start: " ++ isoformat e0.timestamp) ++ "\n" ++
        ("End: " ++
          isoformat ((e0 :: rest).getLast (List.cons_ne_nil e0 rest)).timestamp) ++
        "\n" ++ "\n" ++ mid ++ "\n" ++ "=== End Transcript ===") ∧
    TranscriptProjection.project TranscriptConfig.default (e0 :: rest) ≠ "" := by
  obtain ⟨mid, hmid⟩ :=
    joinLines_append_end "=== End Transcript ==="
      ((e0 :: rest).filterMap (TranscriptProjection.format_event TranscriptConfig.default))
  have heq :
      TranscriptProjection.project TranscriptConfig.default (e0 :: rest) =
        "=== Transcript: " ++ e0.correlation_id ++ " ===" ++ "\n" ++
        ("Events: " ++ toString (e0 :: rest).length) ++ "\n" ++
        ("Start: " ++ isoformat e0.timestamp) ++ "\n" ++
        ("End: " ++
          isoformat ((e0 :: rest).getLast (List.cons_ne_nil e0 rest)).timestamp) ++
        "\n" ++ "\n" ++ mid ++ "\n" ++ "=== End Transcript ===" := by
    show joinLines
        (["=== Transcript: " ++ e0.correlation_id ++ " ===",
          "Events: " ++ toString (e0 :: rest).length,
          "Start: " ++ isoformat e0.timestamp,
          "End: " ++ isoformat ((e0 :: rest).getLast (List.cons_ne_nil e0 rest)).timestamp,
          ""] ++
          (e0 :: rest).filterMap (TranscriptProjection.format_event TranscriptConfig.default) ++
          ["", "=== End Transcript ==="]) = _
    simp only [List.cons_append, List.nil_append]
    rw [joinLines_cons _ _ (by simp), joinLines_cons _ _ (by simp),
      joinLines_cons _ _ (by simp), joinLines_cons _ _ (by simp),
      joinLines_cons _ _ (by simp), hmid]
    simp only [String.append_assoc]
    rfl
  refine ⟨⟨mid, heq⟩, ?_⟩
  intro hemp
  rw [heq] at hemp
  have hlen := congrArg String.length hemp
  simp only [String.length_append] at hlen
  have hpos : 0 < ("=== Transcript: " : String).length := by decide
  have hzero : ("" : String).length = 0 := rfl
  omega

end ChatSnapshot
